import Mathlib

/-!
Verification of the FinTrac auth/session/rate-limit core
(`src/server/src/core/rate_limiter.py`, `src/server/src/core/securities/jwt.py`,
`src/server/src/service/auth.py`, `src/server/src/repository/auth_session.py`)
against its natural-language specification.

Conventions of the shallow embedding:
* Lua / Python numbers that may be fractional (token counts, refill rates,
  `time.time()` results) are rationals `ℚ`; timestamps handed to the Lua
  script and stored in records are integers `ℤ` (the code passes `int(now)`).
* Redis state is an explicit `Option Bucket` value threaded through calls.
* Database tables are explicit `List` values, SQL predicates become Lean
  predicates over records.
* A raised `BaseAppException` becomes the `.error` case of an `Except`
  carrying the status code and message literally from the source.
-/

namespace FinTrac

/-! ## Token-bucket rate limiter (`core/rate_limiter.py`) -/

/-- Per-identifier bucket state kept in Redis by the Lua script:
`{tokens = <number>, last_refill = <integer timestamp>}`. -/
structure Bucket where
  tokens : ℚ
  last_refill : ℤ
  deriving Repr, DecidableEq

/-- Value returned by the Lua script: `{allowed, math.floor(bucket.tokens),
bucket.last_refill + ttl}`. -/
structure LuaResult where
  allowed : Bool
  remaining : ℤ
  reset : ℤ
  deriving Repr, DecidableEq

/-- The Lua script registered in `TokenBucketRateLimiter.initialize`
(rate_limiter.py lines 34-71), as a pure function from the previous stored
state (`none` when `redis.call('GET', key)` returns `false`) to the updated
stored state and the returned triple. -/
def luaTokenBucket (capacity refill_rate : ℚ) (now : ℤ) (required : ℚ)
    (ttl : ℤ) (data : Option Bucket) : Bucket × LuaResult :=
  let bucket : Bucket :=
    match data with
    | none => { tokens := capacity, last_refill := now }
    | some decoded => decoded
  let elapsed : ℚ := max 0 ((now : ℚ) - (bucket.last_refill : ℚ))
  let tokens₁ : ℚ := min capacity (bucket.tokens + elapsed * refill_rate)
  let allowed : Bool := required ≤ tokens₁
  let tokens₂ : ℚ := if required ≤ tokens₁ then tokens₁ - required else tokens₁
  let final : Bucket := { tokens := tokens₂, last_refill := now }
  (final, { allowed := allowed, remaining := ⌊tokens₂⌋, reset := now + ttl })

/-- Python `int(x)` for a real-valued `x`: truncation toward zero. -/
def pyInt (x : ℚ) : ℤ := if 0 ≤ x then ⌊x⌋ else ⌈x⌉

/-- `TokenBucketRateLimiter.allow_request` (rate_limiter.py lines 77-120).
`now` is the float `time.time()`; the script receives `int(now)`.
`storeOk = false` models the `except Exception` branch (Redis unreachable or
timed out): the call returns `(True, capacity, int(now) + ttl)` without
touching the store. Result: `((allowed, remaining, reset), new store)`. -/
def allow_request (capacity : ℤ) (refill_rate required_tokens : ℚ)
    (ttl : ℤ) (now : ℚ) (store : Option Bucket) (storeOk : Bool) :
    (Bool × ℤ × ℤ) × Option Bucket :=
  if storeOk then
    let r := luaTokenBucket (capacity : ℚ) refill_rate (pyInt now)
      required_tokens ttl store
    ((r.2.allowed, r.2.remaining, r.2.reset), some r.1)
  else
    ((true, capacity, pyInt now + ttl), store)

/-- The bucket update exactly as the specification words it
(spec §4.3 steps 1-5, and claim C1): initialize absent state with
`tokens = capacity, last_refill = now`; refill
`tokens = min(capacity, tokens + max(0, now - last_refill) * refill_rate)`
and set `last_refill = now`; subtract the cost iff the refilled count is
at least the cost; return the allowed flag, `floor(tokens)` and
`last_refill + ttl`. -/
def specAllowStep (capacity refill_rate : ℚ) (now : ℤ) (cost : ℚ)
    (ttl : ℤ) (state : Option Bucket) : Bucket × LuaResult :=
  let start : Bucket :=
    match state with
    | none => { tokens := capacity, last_refill := now }
    | some b => b
  let refilled : ℚ :=
    min capacity (start.tokens + max 0 ((now : ℚ) - (start.last_refill : ℚ)) * refill_rate)
  let granted : Bool := cost ≤ refilled
  let remaining : ℚ := if cost ≤ refilled then refilled - cost else refilled
  ({ tokens := remaining, last_refill := now },
   { allowed := granted, remaining := ⌊remaining⌋, reset := now + ttl })

/-- C1: every successful `allow_request` call behaves exactly as the
specification describes: absent state is initialized to a full bucket,
the token count is refilled by `min(capacity, tokens + max(0, now - last_refill) * refill_rate)`
with `last_refill := now`, the cost is subtracted iff the refilled count
covers it, and the call returns the allowed flag, `floor(tokens)` and
`last_refill + ttl` — with `now` the integer-truncated wall clock. -/
theorem C1_allow_request_matches_spec (capacity : ℤ)
    (refill_rate required_tokens : ℚ) (ttl : ℤ) (now : ℚ)
    (store : Option Bucket) :
    allow_request capacity refill_rate required_tokens ttl now store true =
      (let r := specAllowStep (capacity : ℚ) refill_rate (pyInt now)
        required_tokens ttl store
       ((r.2.allowed, r.2.remaining, r.2.reset), some r.1)) := by
  cases store <;> rfl

/-- C6: when the backing store operation fails, `allow_request` fails open:
it returns `allowed = true` with remaining equal to the full capacity (and
reset `int(now) + ttl`), leaving the store untouched, instead of raising. -/
theorem C6_fail_open (capacity : ℤ) (refill_rate required_tokens : ℚ)
    (ttl : ℤ) (now : ℚ) (store : Option Bucket) :
    allow_request capacity refill_rate required_tokens ttl now store false =
      ((true, capacity, pyInt now + ttl), store) := by
  rfl

/-- After any successful bucket step the stored token count is at most the
capacity (the refill is capped by `min` and consumption only decreases it). -/
theorem luaTokenBucket_tokens_le (capacity refill_rate : ℚ) (now : ℤ)
    (required : ℚ) (ttl : ℤ) (data : Option Bucket) (hreq : 0 ≤ required) :
    (luaTokenBucket capacity refill_rate now required ttl data).1.tokens ≤ capacity := by
  unfold luaTokenBucket
  dsimp only
  split
  · exact le_trans (sub_le_self _ hreq) (min_le_left _ _)
  · exact min_le_left _ _

/-- The stored `last_refill` after a bucket step is the `now` handed to the
script. -/
theorem luaTokenBucket_last_refill (capacity refill_rate : ℚ) (now : ℤ)
    (required : ℚ) (ttl : ℤ) (data : Option Bucket) :
    (luaTokenBucket capacity refill_rate now required ttl data).1.last_refill = now := by
  cases data <;> rfl

/-- C10: `allow_request` truncates `time.time()` to whole seconds
(`int(now)`) before handing it to the script, so a second call on the same
identifier within the same integer second observes elapsed time `0`: no
tokens are refilled, the token count changes only by the consumed cost, and
`last_refill` is unchanged. -/
theorem C10_same_second_no_refill (capacity : ℤ)
    (refill_rate required_tokens : ℚ) (ttl : ℤ) (store : Option Bucket)
    (now₁ now₂ : ℚ) (b : Bucket)
    (hreq : 0 ≤ required_tokens)
    (hsec : pyInt now₁ = pyInt now₂)
    (hb : (allow_request capacity refill_rate required_tokens ttl now₁ store true).2 = some b) :
    allow_request capacity refill_rate required_tokens ttl now₂ (some b) true =
      ((decide (required_tokens ≤ b.tokens),
        ⌊if required_tokens ≤ b.tokens then b.tokens - required_tokens else b.tokens⌋,
        pyInt now₂ + ttl),
       some { tokens := if required_tokens ≤ b.tokens then b.tokens - required_tokens
                        else b.tokens,
              last_refill := b.last_refill }) := by
  simp only [allow_request, if_pos] at hb ⊢
  rw [Option.some_inj] at hb
  have hlast : b.last_refill = pyInt now₂ := by
    rw [← hb, luaTokenBucket_last_refill, hsec]
  have htok : b.tokens ≤ (capacity : ℚ) := by
    rw [← hb]; exact luaTokenBucket_tokens_le _ _ _ _ _ _ hreq
  unfold luaTokenBucket
  dsimp only
  rw [hlast]
  rw [sub_self, max_self, zero_mul, add_zero, min_eq_right htok]

/-- C10 witness: two calls at the same wall-clock second (`now = 1`) on a
bucket of capacity 1; the second call refills nothing and is denied with the
token count unchanged. -/
theorem C10_same_second_no_refill_witness :
    (0 : ℚ) ≤ 1 ∧ pyInt 1 = pyInt 1 ∧
    allow_request 1 1 1 60 1 (some { tokens := 0, last_refill := 1 }) true =
      ((decide ((1 : ℚ) ≤ (0 : ℚ)),
        ⌊if (1 : ℚ) ≤ (0 : ℚ) then (0 : ℚ) - 1 else (0 : ℚ)⌋, pyInt 1 + 60),
       some { tokens := if (1 : ℚ) ≤ (0 : ℚ) then (0 : ℚ) - 1 else (0 : ℚ),
              last_refill := 1 }) :=
  ⟨zero_le_one, rfl,
    C10_same_second_no_refill 1 1 1 60 none 1 1 { tokens := 0, last_refill := 1 }
      zero_le_one rfl (by simp [allow_request, luaTokenBucket, pyInt])⟩

/-- The sequence of allowed/denied answers produced by successive
`allow_request` calls on one identifier at the given wall-clock times,
threading the stored bucket state from call to call. -/
def runAllow (capacity : ℤ) (refill_rate required_tokens : ℚ) (ttl : ℤ)
    (store : Option Bucket) : List ℚ → List Bool
  | [] => []
  | now :: rest =>
    let r := allow_request capacity refill_rate required_tokens ttl now store true
    r.1.1 :: runAllow capacity refill_rate required_tokens ttl r.2 rest

/-- Truncation toward zero is monotone. -/
theorem pyInt_mono {x y : ℚ} (h : x ≤ y) : pyInt x ≤ pyInt y := by
  unfold pyInt
  by_cases hx : 0 ≤ x
  · rw [if_pos hx, if_pos (hx.trans h)]
    exact Int.floor_le_floor h
  · rw [if_neg hx]
    by_cases hy : 0 ≤ y
    · rw [if_pos hy]
      exact le_trans (Int.ceil_le.mpr (by exact_mod_cast le_of_not_le hx))
        (Int.le_floor.mpr (by exact_mod_cast hy))
    · rw [if_neg hy]
      exact Int.ceil_le_ceil h

/-- Burst bound for a trace that starts from an existing bucket state:
the total cost granted is at most the starting tokens plus the refill
accumulated up to the horizon `Thi`. -/
theorem runAllow_grants_bound (capacity : ℤ) (rate req : ℚ) (ttl : ℤ) :
    ∀ (ts : List ℚ) (b : Bucket) (Thi : ℤ),
      0 ≤ (capacity : ℚ) → 0 ≤ rate → 0 ≤ b.tokens →
      List.Chain' (· ≤ ·) (b.last_refill :: ts.map pyInt) →
      (∀ t ∈ ts, pyInt t ≤ Thi) → b.last_refill ≤ Thi →
      ((runAllow capacity rate req ttl (some b) ts).count true : ℚ) * req ≤
        b.tokens + ((Thi : ℚ) - (b.last_refill : ℚ)) * rate
  | [], b, Thi, hcap, hrate, htok, _, _, hlast => by
    simp only [runAllow, List.count_nil, Nat.cast_zero, zero_mul]
    have : (0 : ℚ) ≤ ((Thi : ℚ) - (b.last_refill : ℚ)) * rate :=
      mul_nonneg (sub_nonneg.mpr (by exact_mod_cast hlast)) hrate
    linarith
  | t :: ts, b, Thi, hcap, hrate, htok, hchain, hhi, hlast => by
    have hstep : b.last_refill ≤ pyInt t := by
      have := hchain.rel_head
      simpa using this
    have hchain' : List.Chain' (· ≤ ·) (pyInt t :: ts.map pyInt) := by
      simpa using hchain.tail
    have htThi : pyInt t ≤ Thi := hhi t (List.mem_cons_self _ _)
    -- unfold one step of the trace
    have helapsed : max 0 ((pyInt t : ℚ) - (b.last_refill : ℚ)) =
        (pyInt t : ℚ) - (b.last_refill : ℚ) :=
      max_eq_right (sub_nonneg.mpr (by exact_mod_cast hstep))
    set t1 : ℚ := min (capacity : ℚ)
      (b.tokens + ((pyInt t : ℚ) - (b.last_refill : ℚ)) * rate) with ht1
    have ht1le : t1 ≤ b.tokens + ((pyInt t : ℚ) - (b.last_refill : ℚ)) * rate :=
      min_le_right _ _
    have hrefill_nonneg : (0 : ℚ) ≤
        b.tokens + ((pyInt t : ℚ) - (b.last_refill : ℚ)) * rate :=
      add_nonneg htok (mul_nonneg (sub_nonneg.mpr (by exact_mod_cast hstep)) hrate)
    have hb' :
        (luaTokenBucket (capacity : ℚ) rate (pyInt t) req ttl (some b)).1 =
          { tokens := if req ≤ t1 then t1 - req else t1, last_refill := pyInt t } := by
      unfold luaTokenBucket
      dsimp only
      rw [helapsed, ← ht1]
    have hallowed :
        (luaTokenBucket (capacity : ℚ) rate (pyInt t) req ttl (some b)).2.allowed =
          decide (req ≤ t1) := by
      unfold luaTokenBucket
      dsimp only
      rw [helapsed, ← ht1]
    have hring : ((pyInt t : ℚ) - (b.last_refill : ℚ)) * rate +
        ((Thi : ℚ) - (pyInt t : ℚ)) * rate = ((Thi : ℚ) - (b.last_refill : ℚ)) * rate := by
      ring
    have hhi' : ∀ u ∈ ts, pyInt u ≤ Thi := fun u hu => hhi u (List.mem_cons_of_mem _ hu)
    by_cases hg : req ≤ t1
    · have hih := runAllow_grants_bound capacity rate req ttl ts
        { tokens := t1 - req, last_refill := pyInt t } Thi hcap hrate
        (by simpa using sub_nonneg.mpr hg)
        (by simpa using hchain') hhi' htThi
      simp only [runAllow, allow_request, if_pos, hallowed, hb', hg, if_true,
        List.count_cons, beq_self_eq_true, decide_True, decide_eq_true_eq] at hih ⊢
      push_cast
      nlinarith [hih, ht1le, hring]
    · have hih := runAllow_grants_bound capacity rate req ttl ts
        { tokens := t1, last_refill := pyInt t } Thi hcap hrate
        (le_min hcap hrefill_nonneg)
        (by simpa using hchain') hhi' htThi
      simp only [runAllow, allow_request, if_pos, hallowed, hb', hg, if_false,
        List.count_cons, beq_self_eq_true, decide_False, decide_eq_true_eq] at hih ⊢
      simp only [beq_iff_eq, Bool.false_eq_true, if_false, Nat.add_zero]
      nlinarith [hih, ht1le, hring]

/-- C4 (amended): for nonnegative capacity and refill rate, and a
nondecreasing sequence of calls on one identifier whose truncated times all
lie in the integer window `[Tlo, Thi]`, the total granted cost is bounded by
`capacity + (Thi - Tlo) * refill_rate` — for unit cost and a window of
length `capacity / refill_rate` this is `2 * capacity`, not the `capacity`
the claim states (see the counterexample). -/
theorem C4_window_grants_bound (capacity : ℤ) (rate req : ℚ) (ttl : ℤ)
    (t₀ : ℚ) (ts : List ℚ) (Tlo Thi : ℤ)
    (hcap : 0 ≤ capacity) (hrate : 0 ≤ rate)
    (hchain : List.Chain' (· ≤ ·) (t₀ :: ts))
    (hlo : ∀ t ∈ t₀ :: ts, Tlo ≤ pyInt t)
    (hhi : ∀ t ∈ t₀ :: ts, pyInt t ≤ Thi) :
    ((runAllow capacity rate req ttl none (t₀ :: ts)).count true : ℚ) * req ≤
      (capacity : ℚ) + ((Thi : ℚ) - (Tlo : ℚ)) * rate := by
  have hcapQ : (0 : ℚ) ≤ (capacity : ℚ) := by exact_mod_cast hcap
  have hmap : List.Chain' (· ≤ ·) ((t₀ :: ts).map pyInt) :=
    (List.chain'_map pyInt).mpr (hchain.imp fun a b h => pyInt_mono h)
  have hmap' : List.Chain' (· ≤ ·) (pyInt t₀ :: ts.map pyInt) := by
    simpa using hmap
  have ht₀Thi : pyInt t₀ ≤ Thi := hhi t₀ (List.mem_cons_self _ _)
  have ht₀Tlo : Tlo ≤ pyInt t₀ := hlo t₀ (List.mem_cons_self _ _)
  have hhi' : ∀ u ∈ ts, pyInt u ≤ Thi := fun u hu => hhi u (List.mem_cons_of_mem _ hu)
  have hb0 : (luaTokenBucket (capacity : ℚ) rate (pyInt t₀) req ttl none).1 =
      { tokens := if req ≤ (capacity : ℚ) then (capacity : ℚ) - req else (capacity : ℚ),
        last_refill := pyInt t₀ } := by
    unfold luaTokenBucket
    dsimp only
    rw [sub_self, max_eq_right (le_refl (0 : ℚ)), zero_mul, add_zero, min_self]
  have hallow0 : (luaTokenBucket (capacity : ℚ) rate (pyInt t₀) req ttl none).2.allowed =
      decide (req ≤ (capacity : ℚ)) := by
    unfold luaTokenBucket
    dsimp only
    rw [sub_self, max_eq_right (le_refl (0 : ℚ)), zero_mul, add_zero, min_self]
  have hwin : ((Thi : ℚ) - (pyInt t₀ : ℚ)) * rate ≤ ((Thi : ℚ) - (Tlo : ℚ)) * rate := by
    apply mul_le_mul_of_nonneg_right _ hrate
    have : (Tlo : ℚ) ≤ (pyInt t₀ : ℚ) := by exact_mod_cast ht₀Tlo
    linarith
  by_cases hg : req ≤ (capacity : ℚ)
  · have hih := runAllow_grants_bound capacity rate req ttl ts
      { tokens := (capacity : ℚ) - req, last_refill := pyInt t₀ } Thi hcapQ hrate
      (by simpa using sub_nonneg.mpr hg) (by simpa using hmap') hhi' ht₀Thi
    simp only [runAllow, allow_request, if_pos, hallow0, hb0, hg, if_true,
      List.count_cons, beq_self_eq_true, decide_True, decide_eq_true_eq] at hih ⊢
    push_cast
    linarith [hih, hwin]
  · have hih := runAllow_grants_bound capacity rate req ttl ts
      { tokens := (capacity : ℚ), last_refill := pyInt t₀ } Thi hcapQ hrate
      hcapQ (by simpa using hmap') hhi' ht₀Thi
    simp only [runAllow, allow_request, if_pos, hallow0, hb0, hg, if_false,
      List.count_cons, beq_self_eq_true, decide_False, decide_eq_true_eq] at hih ⊢
    simp only [beq_iff_eq, Bool.false_eq_true, if_false, Nat.add_zero]
    linarith [hih, hwin]

/-- C4 witness: with capacity 2, refill rate 1, unit cost and truncated call
times 0, 0, 1 inside the integer window `[0, 2]`, the bound of the amended
claim gives at most `2 + 2 * 1 = 4` granted requests. -/
theorem C4_window_grants_bound_witness :
    ((runAllow 2 1 1 60 none [0, 0, 1]).count true : ℚ) * 1 ≤
      (2 : ℚ) + ((2 : ℚ) - (0 : ℚ)) * 1 := by
  refine C4_window_grants_bound 2 1 1 60 0 [0, 1] 0 2 (by decide) zero_le_one
    ?_ ?_ ?_
  · simp [List.chain'_cons]
  · intro t ht
    simp only [List.mem_cons, List.not_mem_nil, or_false] at ht
    rcases ht with h | h | h <;> simp [h, pyInt]
  · intro t ht
    simp only [List.mem_cons, List.not_mem_nil, or_false] at ht
    rcases ht with h | h | h <;> simp [h, pyInt]

/-- C4 counterexample: capacity 2, refill rate 1 token/second, cost 1.
The claimed window length is `capacity / refill_rate = 2` seconds; the three
calls at times 0, 0 and 1 all fall inside the rolling window `[0, 2)` and
arrive faster than the refill rate, yet all three are granted —
`3 > 2 = capacity` grants inside one window, refuting the claim. -/
theorem C4_counterexample :
    runAllow 2 1 1 60 none [0, 0, 1] = [true, true, true] ∧
    (runAllow 2 1 1 60 none [0, 0, 1]).count true = 3 ∧
    ((2 : ℚ) / 1 = 2) ∧ 2 < 3 := by
  have h : runAllow 2 1 1 60 none [0, 0, 1] = [true, true, true] := by
    norm_num [runAllow, allow_request, luaTokenBucket, pyInt]
  exact ⟨h, by rw [h]; rfl, by norm_num, by norm_num⟩

/-! ## JWT manager (`core/securities/jwt.py`) -/

/-- A JSON claim value as used in the token payloads: strings (token type,
jti, user id, extra claims) or integer timestamps (`exp`, `iat`). -/
inductive CVal where
  | s (v : String)
  | i (v : ℤ)
  deriving Repr, DecidableEq

/-- A Python dict of claims, as an association list keyed by claim name. -/
abbrev Claims := List (String × CVal)

/-- `d.get(key)`: first binding of `key`, if any. -/
def dictGet : Claims → String → Option CVal
  | [], _ => none
  | (k, v) :: rest, key => if k == key then some v else dictGet rest key

/-- `d[key] = v`: replace the existing binding or append a new one. -/
def dictInsert : Claims → String → CVal → Claims
  | [], key, v => [(key, v)]
  | (k, w) :: rest, key, v =>
    if k == key then (k, v) :: rest else (k, w) :: dictInsert rest key v

/-- `d.update(kvs)`: insert every binding of `kvs`, overriding existing
keys — this is how `payload.update(additional_claims)` behaves. -/
def dictUpdate (d : Claims) (kvs : Claims) : Claims :=
  kvs.foldl (fun acc kv => dictInsert acc kv.1 kv.2) d

/-- An encoded JWT: the signed payload together with the signing key used.
Verification with the right key recovers exactly the payload; any other key
fails the signature check. -/
structure JwtToken where
  payload : Claims
  key : String
  deriving Repr, DecidableEq

/-- Outcomes of `jwt.decode` relevant here. -/
inductive JwtDecodeFail where
  | invalid
  | expired
  deriving Repr, DecidableEq

/-- The external `jwt.decode(token, key, algorithms)` call as the spec
describes token validity (§3/§4.1): a bad signature or malformed token is
`InvalidTokenError`; an `exp` claim at or before `now` is
`ExpiredSignatureError`; otherwise the payload is returned. -/
def jwtDecode (token : JwtToken) (key : String) (now : ℤ) :
    Except JwtDecodeFail Claims :=
  if token.key == key then
    match dictGet token.payload "exp" with
    | some (CVal.i e) => if e ≤ now then .error .expired else .ok token.payload
    | some (CVal.s _) => .error .invalid
    | none => .ok token.payload
  else .error .invalid

/-- A `BaseAppException`: status code and message, as raised at the request
boundary. -/
structure AppError where
  status_code : ℤ
  message : String
  deriving Repr, DecidableEq

/-- Python truthiness of a claim value (`if jti:`). -/
def truthy : CVal → Bool
  | .s v => !(v == "")
  | .i v => !(v == 0)

/-- The cache key component for a jti value (stringified when not already a
string). -/
def cvalKey : CVal → String
  | .s v => v
  | .i v => toString v

/-- `JWTManager.verify_token` (jwt.py lines 93-141): decode, check the
`token_type` claim against the expected kind, and — for the refresh kind
only, when a truthy `jti` claim is present — consult the blacklist
(`_is_token_blacklisted`, lines 194-206). Error statuses and messages are
the source literals. -/
def verify_token (token : JwtToken) (key : String) (now : ℤ)
    (token_type : String) (blacklist : String → Bool) : Except AppError Claims :=
  match jwtDecode token key now with
  | .error .expired => .error { status_code := 401, message := "Token has expired" }
  | .error .invalid => .error { status_code := 401, message := "Invalid token" }
  | .ok payload =>
    if dictGet payload "token_type" ≠ some (CVal.s token_type) then
      .error { status_code := 401, message := "Invalid token type" }
    else if token_type == "refresh" then
      match dictGet payload "jti" with
      | some jv =>
        if truthy jv && blacklist (cvalKey jv) then
          .error { status_code := 401, message := "Token has been revoked" }
        else .ok payload
      | none => .ok payload
    else .ok payload

/-- `JWTManager._create_token` (jwt.py lines 34-55): build the registered
claims, then `payload.update(additional_claims)`, then sign. `jti` is the
fresh `uuid4().hex`, passed explicitly here; `expires_delta` is in
seconds. -/
def _create_token (user_id : String) (jti : String) (now : ℤ)
    (expires_delta : ℤ) (token_type : String) (additional_claims : Claims)
    (key : String) : JwtToken :=
  { payload := dictUpdate
      [("token_type", CVal.s token_type),
       ("exp", CVal.i (now + expires_delta)),
       ("iat", CVal.i now),
       ("jti", CVal.s jti),
       ("user_id", CVal.s user_id)]
      additional_claims,
    key := key }

/-- `JWTManager.create_access_token` (jwt.py lines 57-66). -/
def create_access_token (user_id : String) (jti : String) (now : ℤ)
    (expires_delta : ℤ) (additional_claims : Claims) (key : String) : JwtToken :=
  _create_token user_id jti now expires_delta "access" additional_claims key

/-- Updating with claims that avoid a key leaves that key's binding
unchanged. -/
theorem dictGet_dictInsert_ne (d : Claims) (k key : String) (v : CVal)
    (h : k ≠ key) : dictGet (dictInsert d k v) key = dictGet d key := by
  induction d with
  | nil => simp [dictInsert, dictGet, h]
  | cons hd tl ih =>
    by_cases hk : hd.1 == k
    · simp only [dictInsert, hk, if_true]
      have h1 : (hd.1 == key) = false := by
        simp only [beq_iff_eq] at hk ⊢
        simp [hk, h]
      simp [dictGet, h1]
    · simp only [dictInsert, hk, if_false]
      cases hd with
      | mk k0 v0 =>
        simp only [dictGet]
        by_cases h0 : k0 == key
        · simp [h0]
        · simp only [h0, if_false, Bool.false_eq_true] at *
          exact ih

/-- Updating with claims none of which bind `key` leaves `key`'s binding
unchanged. -/
theorem dictGet_dictUpdate_not_mem (d : Claims) (kvs : Claims) (key : String)
    (h : ∀ kv ∈ kvs, kv.1 ≠ key) :
    dictGet (dictUpdate d kvs) key = dictGet d key := by
  induction kvs generalizing d with
  | nil => rfl
  | cons hd tl ih =>
    have hstep := dictGet_dictInsert_ne d hd.1 key hd.2 (h hd (List.mem_cons_self _ _))
    have := ih (dictInsert d hd.1 hd.2) (fun kv hkv => h kv (List.mem_cons_of_mem _ hkv))
    simpa [dictUpdate] using this.trans hstep

/-- C5 counterexample: the claim quantifies over every extra-claims dict,
but `_create_token` applies `payload.update(additional_claims)` after the
registered claims, so extra claims can override `token_type`. Issuing an
access token with extra claims `{"token_type": "refresh"}` yields a token
that fails verification against the expected kind `access` (with the
`WrongTokenKind` error `Invalid token type`) and instead verifies as a
refresh token. -/
theorem C5_counterexample :
    verify_token
        (create_access_token "u" "j" 0 900 [("token_type", CVal.s "refresh")] "k")
        "k" 0 "access" (fun _ => false) =
      .error { status_code := 401, message := "Invalid token type" } ∧
    verify_token
        (create_access_token "u" "j" 0 900 [("token_type", CVal.s "refresh")] "k")
        "k" 0 "refresh" (fun _ => false) =
      .ok (create_access_token "u" "j" 0 900 [("token_type", CVal.s "refresh")] "k").payload := by
  constructor <;> rfl

/-- C5 (amended): for every subject, jti, issue time, positive lifetime and
extra claims that do not rebind the registered `token_type` or `exp` claims,
a freshly issued access token verifies successfully with expected kind
`access` (returning its payload, for any blacklist), and verifying the same
token with expected kind `refresh` fails with the `WrongTokenKind` error
(`Invalid token type`, 401). With extra claims that rebind `token_type` the
original claim fails (see the counterexample). -/
theorem C5_issue_verify_roundtrip (user_id jti : String) (now expires_delta : ℤ)
    (extra : Claims) (key : String) (bl bl' : String → Bool)
    (hdelta : 0 < expires_delta)
    (hkeys : ∀ kv ∈ extra, kv.1 ≠ "token_type" ∧ kv.1 ≠ "exp") :
    verify_token (create_access_token user_id jti now expires_delta extra key)
        key now "access" bl =
      .ok (create_access_token user_id jti now expires_delta extra key).payload ∧
    verify_token (create_access_token user_id jti now expires_delta extra key)
        key now "refresh" bl' =
      .error { status_code := 401, message := "Invalid token type" } := by
  have htt : dictGet (create_access_token user_id jti now expires_delta extra key).payload
      "token_type" = some (CVal.s "access") := by
    unfold create_access_token _create_token
    rw [dictGet_dictUpdate_not_mem _ _ _ (fun kv h => (hkeys kv h).1)]
    rfl
  have hexp : dictGet (create_access_token user_id jti now expires_delta extra key).payload
      "exp" = some (CVal.i (now + expires_delta)) := by
    unfold create_access_token _create_token
    rw [dictGet_dictUpdate_not_mem _ _ _ (fun kv h => (hkeys kv h).2)]
    rfl
  have hnotexp : ¬(now + expires_delta ≤ now) := by omega
  have hdec : jwtDecode (create_access_token user_id jti now expires_delta extra key)
      key now = .ok (create_access_token user_id jti now expires_delta extra key).payload := by
    unfold jwtDecode
    rw [show (create_access_token user_id jti now expires_delta extra key).key = key from rfl]
    rw [beq_self_eq_true, if_pos rfl, hexp]
    dsimp only
    rw [if_neg hnotexp]
  constructor
  · unfold verify_token
    rw [hdec]
    dsimp only
    rw [htt]
    simp
  · unfold verify_token
    rw [hdec]
    dsimp only
    rw [htt]
    simp

/-- C5 witness: subject `u`, jti `j`, issued at 0 with lifetime 900 and a
harmless extra claim; the access-kind verification succeeds and the
refresh-kind verification fails with the kind-mismatch error. -/
theorem C5_issue_verify_roundtrip_witness :
    (0 : ℤ) < 900 ∧
    verify_token (create_access_token "u" "j" 0 900 [("scope", CVal.s "all")] "k")
        "k" 0 "access" (fun _ => true) =
      .ok (create_access_token "u" "j" 0 900 [("scope", CVal.s "all")] "k").payload ∧
    verify_token (create_access_token "u" "j" 0 900 [("scope", CVal.s "all")] "k")
        "k" 0 "refresh" (fun _ => true) =
      .error { status_code := 401, message := "Invalid token type" } :=
  ⟨by decide,
   (C5_issue_verify_roundtrip "u" "j" 0 900 [("scope", CVal.s "all")] "k"
      (fun _ => true) (fun _ => true) (by decide) (by decide)).1,
   (C5_issue_verify_roundtrip "u" "j" 0 900 [("scope", CVal.s "all")] "k"
      (fun _ => true) (fun _ => true) (by decide) (by decide)).2⟩

/-- C9: a refresh token whose payload carries no `jti` claim (valid
signature, unexpired, expected kind `refresh`) verifies successfully for
every possible revocation store — `verify_token` guards the blacklist
lookup with `if jti:`, so the `RevokedToken` outcome is unreachable for
jti-less refresh tokens. -/
theorem C9_refresh_without_jti_skips_blacklist (token : JwtToken) (key : String)
    (now e : ℤ)
    (hkey : token.key = key)
    (hexp : dictGet token.payload "exp" = some (CVal.i e))
    (hfresh : now < e)
    (htt : dictGet token.payload "token_type" = some (CVal.s "refresh"))
    (hjti : dictGet token.payload "jti" = none) :
    ∀ blacklist : String → Bool,
      verify_token token key now "refresh" blacklist = .ok token.payload := by
  intro bl
  have hnotexp : ¬(e ≤ now) := by omega
  unfold verify_token jwtDecode
  rw [hkey, beq_self_eq_true, if_pos rfl, hexp]
  dsimp only
  rw [if_neg hnotexp]
  dsimp only
  rw [htt]
  simp [hjti]

/-- C9 witness: a concrete jti-less refresh token is accepted even when the
blacklist reports every key as revoked. -/
theorem C9_refresh_without_jti_skips_blacklist_witness :
    verify_token
        { payload := [("token_type", CVal.s "refresh"), ("exp", CVal.i 100)],
          key := "k" }
        "k" 0 "refresh" (fun _ => true) =
      .ok [("token_type", CVal.s "refresh"), ("exp", CVal.i 100)] :=
  C9_refresh_without_jti_skips_blacklist
    { payload := [("token_type", CVal.s "refresh"), ("exp", CVal.i 100)], key := "k" }
    "k" 0 100 rfl (by decide) (by decide) (by decide) (by decide) (fun _ => true)

/-! ## Auth sessions (`repository/auth_session.py`, `service/auth.py`) -/

/-- One row of the `auth_sessions` table (models/db/auth_session.py).
Identifiers are numbered abstractly; timestamps are integer seconds. -/
structure SessionRec where
  sid : ℕ
  user_id : ℕ
  device_id : ℕ
  refresh_token_jti : Option String
  is_active : Bool
  expires_at : ℤ
  created_at : ℤ
  last_used_at : Option ℤ
  deriving Repr, DecidableEq

/-- WHERE clause of `get_active_by_jti`: `refresh_token_jti == jti AND
is_active AND expires_at > now`. -/
def jtiActivePred (now : ℤ) (jti : String) (s : SessionRec) : Bool :=
  s.refresh_token_jti == some jti && s.is_active && decide (now < s.expires_at)

/-- `AuthSessionRepository.get_active_by_jti` (auth_session.py lines 15-24):
`one_or_none` yields the row when unique, `none` when absent, and raises
when several rows match (the `.error` case). -/
def get_active_by_jti (db : List SessionRec) (now : ℤ) (jti : String) :
    Except Unit (Option SessionRec) :=
  match db.filter (jtiActivePred now jti) with
  | [] => .ok none
  | [s] => .ok (some s)
  | _ :: _ :: _ => .error ()

/-- `AuthSessionRepository.revoke` (auth_session.py lines 26-29): set
`is_active = false` and stamp `last_used_at`; the refresh-token jti is NOT
touched by this operation. -/
def revoke (db : List SessionRec) (sid : ℕ) (now : ℤ) : List SessionRec :=
  db.map fun s =>
    if s.sid == sid then { s with is_active := false, last_used_at := some now }
    else s

/-- WHERE clause of `count_active_sessions`: `user_id == u AND is_active
AND expires_at > now`. -/
def activePred (u : ℕ) (now : ℤ) (s : SessionRec) : Bool :=
  s.user_id == u && s.is_active && decide (now < s.expires_at)

/-- `AuthSessionRepository.count_active_sessions` (lines 47-59). -/
def count_active_sessions (db : List SessionRec) (u : ℕ) (now : ℤ) : ℕ :=
  db.countP (activePred u now)

/-- Selection predicate of `revoke_oldest_sessions`: `user_id == u AND
is_active` — note: no expiry condition. -/
def isActiveUser (u : ℕ) (s : SessionRec) : Bool :=
  s.user_id == u && s.is_active

/-- `AuthSessionRepository.revoke_oldest_sessions` (lines 61-84): select the
user's `is_active` rows ordered by `created_at` ascending, take `limit` of
them, and set `is_active = false` and `refresh_token_jti = None` on each. -/
def revoke_oldest_sessions (db : List SessionRec) (u : ℕ) (limit : ℕ) :
    List SessionRec :=
  let sel : List ℕ :=
    (((db.filter (isActiveUser u)).insertionSort
        (fun a b => a.created_at ≤ b.created_at)).take limit).map SessionRec.sid
  db.map fun s =>
    if sel.contains s.sid then { s with is_active := false, refresh_token_jti := none }
    else s

/-- `AuthSessionRepository.revoke_by_device` (lines 86-99): bulk UPDATE of
the user's active sessions on one device, clearing the jti. -/
def revoke_by_device (db : List SessionRec) (u d : ℕ) : List SessionRec :=
  db.map fun s =>
    if s.user_id == u && s.device_id == d && s.is_active then
      { s with is_active := false, refresh_token_jti := none }
    else s

/-- The session part of `AuthService.login_user` (auth.py lines 350-392):
revoke this device's sessions, count active sessions, evict
`active + 1 - MAX_SESSIONS` oldest when `active >= MAX_SESSIONS`, then
insert the new session row. -/
def loginSessionPhase (db : List SessionRec) (u d : ℕ) (now : ℤ)
    (maxSessions : ℕ) (newSession : SessionRec) : List SessionRec :=
  let db1 := revoke_by_device db u d
  let active := count_active_sessions db1 u now
  let db2 :=
    if maxSessions ≤ active then
      revoke_oldest_sessions db1 u (active + 1 - maxSessions)
    else db1
  db2 ++ [newSession]

/-- Bool membership and list membership agree for ℕ keys. -/
theorem contains_iff_mem (l : List ℕ) (x : ℕ) : l.contains x = true ↔ x ∈ l := by
  simp

/-- A count splits along any Boolean discriminator. -/
theorem countP_split {α : Type} (p q : α → Bool) (l : List α) :
    l.countP (fun s => p s && q s) + l.countP (fun s => !p s && q s) = l.countP q := by
  induction l with
  | nil => rfl
  | cons hd tl ih =>
    simp only [List.countP_cons]
    by_cases hp : p hd = true <;> by_cases hq : q hd = true <;>
      simp [hp, hq] <;> omega

/-- If the sids in `sel` are distinct and each is the sid of some row of
`db` satisfying `A`, and `db`'s sids are distinct, then exactly
`sel.length` rows of `db` have their sid in `sel` and satisfy `A`. -/
theorem countP_sel_eq_length (A : SessionRec → Bool) :
    ∀ (db : List SessionRec) (sel : List ℕ),
      (db.map SessionRec.sid).Nodup → sel.Nodup →
      (∀ x ∈ sel, ∃ s ∈ db, s.sid = x ∧ A s = true) →
      db.countP (fun s => sel.contains s.sid && A s) = sel.length
  | [], sel, _, _, hw => by
    have : sel = [] := by
      apply List.eq_nil_iff_forall_not_mem.mpr
      intro x hx
      obtain ⟨s, hs, -⟩ := hw x hx
      exact absurd hs (List.not_mem_nil s)
    simp [this]
  | s₀ :: rest, sel, hnodup, hsel, hw => by
    rw [List.map_cons, List.nodup_cons] at hnodup
    obtain ⟨h0, h1⟩ := hnodup
    rw [List.countP_cons]
    by_cases hmem : s₀.sid ∈ sel
    · by_cases hA : A s₀ = true
      · have hpred : (sel.contains s₀.sid && A s₀) = true := by
          rw [(contains_iff_mem sel s₀.sid).mpr hmem, hA]; rfl
        rw [if_pos hpred]
        have hw' : ∀ x ∈ sel.erase s₀.sid, ∃ s ∈ rest, s.sid = x ∧ A s = true := by
          intro x hx
          obtain ⟨hxne, hxmem⟩ := (hsel.mem_erase_iff).mp hx
          obtain ⟨s, hs, hsid, hAs⟩ := hw x hxmem
          rcases List.mem_cons.mp hs with rfl | hrest
          · exact absurd hsid.symm hxne
          · exact ⟨s, hrest, hsid, hAs⟩
        have hcongr : rest.countP (fun s => sel.contains s.sid && A s) =
            rest.countP (fun s => (sel.erase s₀.sid).contains s.sid && A s) := by
          apply List.countP_congr
          intro s hs
          have hsne : s.sid ≠ s₀.sid := by
            intro heq
            exact h0 (heq ▸ List.mem_map_of_mem SessionRec.sid hs)
          have : ((sel.erase s₀.sid).contains s.sid = true) ↔ (sel.contains s.sid = true) := by
            rw [contains_iff_mem, contains_iff_mem, hsel.mem_erase_iff]
            exact ⟨fun h => h.2, fun h => ⟨hsne, h⟩⟩
          rw [Bool.and_eq_true, Bool.and_eq_true, this]
        rw [hcongr, countP_sel_eq_length A rest (sel.erase s₀.sid) h1
          (hsel.erase _) hw']
        have := List.length_erase_of_mem hmem
        have hpos : 0 < sel.length := List.length_pos.mpr
          (fun h => by subst h; exact List.not_mem_nil _ hmem)
        omega
      · exfalso
        obtain ⟨s, hs, hsid, hAs⟩ := hw s₀.sid hmem
        rcases List.mem_cons.mp hs with rfl | hrest
        · exact hA hAs
        · exact h0 (hsid ▸ List.mem_map_of_mem SessionRec.sid hrest)
    · have hpred : (sel.contains s₀.sid && A s₀) = false := by
        have : sel.contains s₀.sid = false := by
          rw [← Bool.not_eq_true]
          intro h
          exact hmem ((contains_iff_mem sel s₀.sid).mp h)
        rw [this]; rfl
      rw [hpred]
      simp only [Bool.false_eq_true, if_false, Nat.add_zero]
      apply countP_sel_eq_length A rest sel h1 hsel
      intro x hx
      obtain ⟨s, hs, hsid, hAs⟩ := hw x hx
      rcases List.mem_cons.mp hs with rfl | hrest
      · exact absurd (hsid ▸ hx) hmem
      · exact ⟨s, hrest, hsid, hAs⟩

/-- Effect of `revoke_oldest_sessions` on the active count when every
`is_active` session of the user is unexpired: exactly
`min limit (active count)` active sessions are removed. -/
theorem revoke_oldest_count (db : List SessionRec) (u : ℕ) (now : ℤ) (k : ℕ)
    (hnodup : (db.map SessionRec.sid).Nodup)
    (hfresh : ∀ s ∈ db, isActiveUser u s = true → now < s.expires_at) :
    count_active_sessions (revoke_oldest_sessions db u k) u now +
      min k (count_active_sessions db u now) = count_active_sessions db u now := by
  set I := db.filter (isActiveUser u) with hI
  set sorted := I.insertionSort (fun a b => a.created_at ≤ b.created_at) with hsorted
  set sel := (sorted.take k).map SessionRec.sid with hseldef
  have hperm : sorted.Perm I := List.perm_insertionSort _ I
  have hcount_eq : List.countP (activePred u now) db = I.length := by
    rw [hI, ← List.countP_eq_length_filter]
    apply List.countP_congr
    intro s hs
    simp only [activePred, isActiveUser, Bool.and_eq_true, decide_eq_true_eq]
    constructor
    · rintro ⟨h, -⟩
      exact h
    · intro h
      refine ⟨h, hfresh s hs ?_⟩
      simp only [isActiveUser, Bool.and_eq_true]
      exact h
  have hInodup : (I.map SessionRec.sid).Nodup :=
    hnodup.sublist ((List.filter_sublist db).map _)
  have hsortnodup : (sorted.map SessionRec.sid).Nodup :=
    ((hperm.map SessionRec.sid).nodup_iff).mpr hInodup
  have hselnodup : sel.Nodup :=
    hsortnodup.sublist ((List.take_sublist k sorted).map _)
  have hsellen : sel.length = min k (List.countP (activePred u now) db) := by
    rw [hcount_eq, hseldef, List.length_map, List.length_take, hperm.length_eq]
  have hw : ∀ x ∈ sel, ∃ s ∈ db, s.sid = x ∧ activePred u now s = true := by
    intro x hx
    obtain ⟨s, hs_take, rfl⟩ := List.mem_map.mp hx
    have hs_sorted : s ∈ sorted := (List.take_sublist k sorted).subset hs_take
    have hs_I : s ∈ I := hperm.mem_iff.mp hs_sorted
    obtain ⟨hs_db, hact⟩ := List.mem_filter.mp hs_I
    refine ⟨s, hs_db, rfl, ?_⟩
    have hexp := hfresh s hs_db hact
    simp only [activePred, Bool.and_eq_true, decide_eq_true_eq]
    simp only [isActiveUser, Bool.and_eq_true] at hact
    exact ⟨hact, hexp⟩
  have hrw : revoke_oldest_sessions db u k =
      db.map (fun s => if sel.contains s.sid then
        { s with is_active := false, refresh_token_jti := none } else s) := rfl
  have hcongr : List.countP
      ((activePred u now) ∘ (fun s => if sel.contains s.sid then
        { s with is_active := false, refresh_token_jti := none } else s)) db =
      List.countP (fun s => !sel.contains s.sid && activePred u now s) db := by
    apply List.countP_congr
    intro s _
    by_cases hc : s.sid ∈ sel
    · simp [Function.comp, hc, activePred]
    · simp [Function.comp, hc]
  have e1 := countP_split (fun s => sel.contains s.sid) (activePred u now) db
  have e2 := countP_sel_eq_length (activePred u now) db sel hnodup hselnodup hw
  have e3 : count_active_sessions db u now = List.countP (activePred u now) db := rfl
  rw [count_active_sessions, hrw, List.countP_map, hcongr]
  omega

/-- `revoke_by_device` does not change the sid column. -/
theorem revoke_by_device_map_sid (db : List SessionRec) (u d : ℕ) :
    (revoke_by_device db u d).map SessionRec.sid = db.map SessionRec.sid := by
  rw [revoke_by_device, List.map_map]
  apply List.map_congr_left
  intro s _
  by_cases hc : (s.user_id == u && s.device_id == d && s.is_active) = true
  · simp [Function.comp, hc]
  · simp [Function.comp, hc]

/-- `revoke_by_device` preserves "every is_active session of the user is
unexpired" (it only turns sessions inactive). -/
theorem revoke_by_device_fresh (db : List SessionRec) (u d : ℕ) (now : ℤ)
    (hfresh : ∀ s ∈ db, isActiveUser u s = true → now < s.expires_at) :
    ∀ s ∈ revoke_by_device db u d, isActiveUser u s = true → now < s.expires_at := by
  intro s' hs' hact
  rw [revoke_by_device] at hs'
  obtain ⟨s, hs, rfl⟩ := List.mem_map.mp hs'
  by_cases hc : (s.user_id == u && s.device_id == d && s.is_active) = true
  · rw [if_pos hc] at hact ⊢
    simp [isActiveUser] at hact
  · rw [if_neg hc] at hact ⊢
    exact hfresh s hs hact

/-- C2 (amended): `revoke_oldest_sessions` picks the user's oldest
`is_active` rows regardless of expiry. Under the additional hypothesis that
every `is_active` session of the user is unexpired at login time, the login
cap enforcement (evict `active + 1 - MAX_SESSIONS` oldest, then insert the
new session) leaves the user with exactly `MAX_SESSIONS` active sessions.
When a stale row is `is_active` but already expired, the eviction can hit
the stale row instead of a live one and the post-login active count exceeds
`MAX_SESSIONS` (see the counterexample). -/
theorem C2_login_cap_enforcement (db : List SessionRec) (u d : ℕ) (now : ℤ)
    (maxS : ℕ) (ns : SessionRec)
    (hmax : 1 ≤ maxS)
    (hnodup : (db.map SessionRec.sid).Nodup)
    (hfresh : ∀ s ∈ db, isActiveUser u s = true → now < s.expires_at)
    (hns_user : ns.user_id = u) (hns_active : ns.is_active = true)
    (hns_exp : now < ns.expires_at)
    (hover : maxS ≤ count_active_sessions (revoke_by_device db u d) u now) :
    count_active_sessions (loginSessionPhase db u d now maxS ns) u now = maxS := by
  have hnodup1 : ((revoke_by_device db u d).map SessionRec.sid).Nodup := by
    rw [revoke_by_device_map_sid]
    exact hnodup
  have hfresh1 := revoke_by_device_fresh db u d now hfresh
  have hphase : loginSessionPhase db u d now maxS ns =
      revoke_oldest_sessions (revoke_by_device db u d) u
        (count_active_sessions (revoke_by_device db u d) u now + 1 - maxS) ++ [ns] := by
    rw [loginSessionPhase]
    rw [if_pos hover]
  have hcount := revoke_oldest_count (revoke_by_device db u d) u now
    (count_active_sessions (revoke_by_device db u d) u now + 1 - maxS) hnodup1 hfresh1
  have hns : activePred u now ns = true := by
    simp [activePred, hns_user, hns_active, hns_exp]
  rw [hphase, count_active_sessions, List.countP_append, List.countP_singleton,
    if_pos hns]
  have e4 : count_active_sessions (revoke_oldest_sessions (revoke_by_device db u d) u
      (count_active_sessions (revoke_by_device db u d) u now + 1 - maxS)) u now =
      List.countP (activePred u now) (revoke_oldest_sessions (revoke_by_device db u d) u
        (count_active_sessions (revoke_by_device db u d) u now + 1 - maxS)) := rfl
  omega

/-- C2 witness: one live session (sid 2), cap `MAX_SESSIONS = 1`, login from
a new device: the old session is evicted and exactly one active session
remains. -/
theorem C2_login_cap_enforcement_witness :
    count_active_sessions
      (loginSessionPhase
        [{ sid := 2, user_id := 7, device_id := 1, refresh_token_jti := some "b",
           is_active := true, expires_at := 100, created_at := 10, last_used_at := none }]
        7 2 50 1
        { sid := 3, user_id := 7, device_id := 2, refresh_token_jti := some "c",
          is_active := true, expires_at := 200, created_at := 50, last_used_at := none })
      7 50 = 1 :=
  C2_login_cap_enforcement
    [{ sid := 2, user_id := 7, device_id := 1, refresh_token_jti := some "b",
       is_active := true, expires_at := 100, created_at := 10, last_used_at := none }]
    7 2 50 1
    { sid := 3, user_id := 7, device_id := 2, refresh_token_jti := some "c",
      is_active := true, expires_at := 200, created_at := 50, last_used_at := none }
    (by decide) (by decide) (by decide) (by decide) (by decide) (by decide) (by decide)

/-- C2 counterexample: cap `MAX_SESSIONS = 1`, user 7 has a stale session
(sid 1, `is_active` but expired at 5 < 50) and a live one (sid 2, expires at
100). At login the counted active sessions are 1, so one session must be
evicted — but `revoke_oldest_sessions` selects by `is_active` only and
revokes the stale sid 1 (oldest `created_at`), leaving the live session
plus the new one: 2 active sessions ≠ `MAX_SESSIONS = 1`. -/
theorem C2_counterexample :
    count_active_sessions
      (loginSessionPhase
        [{ sid := 1, user_id := 7, device_id := 0, refresh_token_jti := some "a",
           is_active := true, expires_at := 5, created_at := 0, last_used_at := none },
         { sid := 2, user_id := 7, device_id := 1, refresh_token_jti := some "b",
           is_active := true, expires_at := 100, created_at := 10, last_used_at := none }]
        7 2 50 1
        { sid := 3, user_id := 7, device_id := 2, refresh_token_jti := some "c",
          is_active := true, expires_at := 200, created_at := 50, last_used_at := none })
      7 50 = 2 ∧ (2 : ℕ) ≠ 1 := by
  constructor
  · rfl
  · decide

/-- Modelled from the spec: `jwt_manager.extract_jti` is called by
`AuthService.refresh_tokens` and `AuthService.logout_user` but its body is
not among the provided sources. Spec §4.6 describes it as decoding the jti
from the presented refresh token "without full verification first, to
locate the session". -/
def extract_jti (token : JwtToken) : Option String :=
  match dictGet token.payload "jti" with
  | some (CVal.s j) => some j
  | _ => none

/-- `JWTManager.blacklist_refresh_token` (jwt.py lines 143-192): decode,
require kind `refresh` and a truthy jti, then store the jti with TTL equal
to the remaining token lifetime when positive. Returns the updated
blacklist predicate. -/
def blacklist_refresh_token (token : JwtToken) (key : String) (now : ℤ)
    (bl : String → Bool) : Except AppError (String → Bool) :=
  match jwtDecode token key now with
  | .error _ => .error { status_code := 401, message := "Invalid token" }
  | .ok payload =>
    if dictGet payload "token_type" ≠ some (CVal.s "refresh") then
      .error { status_code := 401, message := "Invalid token type" }
    else
      match dictGet payload "jti" with
      | none => .error { status_code := 401, message := "Invalid token" }
      | some jv =>
        if truthy jv then
          match dictGet payload "exp" with
          | some (CVal.i e) =>
            if now < e then .ok (fun j => j == cvalKey jv || bl j) else .ok bl
          | _ => .ok bl
        else .error { status_code := 401, message := "Invalid token" }

/-- `AuthService.logout_user` (auth.py lines 565-582): look up the active
session by the token's jti, revoke it when present, then blacklist the
refresh token. The session revocation commits before the blacklist call, so
the updated table is returned even when the blacklist step fails. -/
def logout_user (db : List SessionRec) (now : ℤ) (token : JwtToken)
    (key : String) (bl : String → Bool) :
    List SessionRec × Except AppError (String → Bool) :=
  match extract_jti token with
  | none => (db, .error { status_code := 401, message := "Invalid token" })
  | some jti =>
    match get_active_by_jti db now jti with
    | .error _ =>
      (db, .error { status_code := 500, message := "Multiple active sessions for one jti" })
    | .ok opt =>
      let db1 :=
        match opt with
        | some s => revoke db s.sid now
        | none => db
      (db1, blacklist_refresh_token token key now bl)

/-- `AuthService.refresh_tokens` (auth.py lines 413-445): decode the jti,
look up the active session (absent ⇒ 401 `Invalid or expired refresh
token`), re-check activity/expiry, then verify the token fully through
`refresh_access_token` → `verify_token` (kind `refresh`, blacklist
consulted there). Success is collapsed to `Unit`; the claims below concern
only which error is surfaced. -/
def refresh_tokens (db : List SessionRec) (now : ℤ) (token : JwtToken)
    (key : String) (blacklist : String → Bool) : Except AppError Unit :=
  match extract_jti token with
  | none => .error { status_code := 401, message := "Invalid token" }
  | some jti =>
    match get_active_by_jti db now jti with
    | .error _ =>
      .error { status_code := 500, message := "Multiple active sessions for one jti" }
    | .ok none => .error { status_code := 401, message := "Invalid or expired refresh token" }
    | .ok (some s) =>
      if !s.is_active || s.expires_at ≤ now then
        .error { status_code := 401, message := "Refresh token session expired or revoked" }
      else
        match verify_token token key now "refresh" blacklist with
        | .error e => .error e
        | .ok _ => .ok ()

/-- Inversion of a successful unique session lookup. -/
theorem get_active_by_jti_ok_some (db : List SessionRec) (now : ℤ) (jti : String)
    (s : SessionRec) (h : get_active_by_jti db now jti = .ok (some s)) :
    db.filter (jtiActivePred now jti) = [s] := by
  unfold get_active_by_jti at h
  rcases hf : db.filter (jtiActivePred now jti) with - | ⟨a, - | ⟨b, l⟩⟩
  · rw [hf] at h
    have h' : (Except.ok none : Except Unit (Option SessionRec)) = .ok (some s) := h
    simp at h'
  · rw [hf] at h
    have h' : (Except.ok (some a) : Except Unit (Option SessionRec)) = .ok (some s) := h
    have ha : a = s := by simpa using h'
    rw [ha]
  · rw [hf] at h
    have h' : (Except.error () : Except Unit (Option SessionRec)) = .ok (some s) := h
    simp at h' 

/-- Inversion of an empty session lookup. -/
theorem get_active_by_jti_ok_none (db : List SessionRec) (now : ℤ) (jti : String)
    (h : get_active_by_jti db now jti = .ok none) :
    db.filter (jtiActivePred now jti) = [] := by
  unfold get_active_by_jti at h
  rcases hf : db.filter (jtiActivePred now jti) with - | ⟨a, - | ⟨b, l⟩⟩
  · rfl
  · rw [hf] at h
    have h' : (Except.ok (some a) : Except Unit (Option SessionRec)) = .ok none := h
    simp at h'
  · rw [hf] at h
    have h' : (Except.error () : Except Unit (Option SessionRec)) = .ok none := h
    simp at h' 

/-- The active-session predicate can only become false as time moves
forward. -/
theorem jtiActivePred_mono (now now₂ : ℤ) (jti : String) (s : SessionRec)
    (h : now ≤ now₂) (hp : jtiActivePred now₂ jti s = true) :
    jtiActivePred now jti s = true := by
  simp only [jtiActivePred, Bool.and_eq_true, decide_eq_true_eq] at hp ⊢
  exact ⟨hp.1, by omega⟩

/-- C8 (amended): when logout's jti matches an active session, the session
is marked inactive and `last_used_at` is stamped — but `revoke` does NOT
clear `refresh_token_jti`: the identifier remains stored on the revoked row
(unlike `revoke_all`, `revoke_by_device` and `revoke_oldest_sessions`,
which do set it to null). -/
theorem C8_logout_marks_inactive_keeps_jti (db : List SessionRec) (now : ℤ)
    (token : JwtToken) (key : String) (bl : String → Bool) (jti : String)
    (s : SessionRec)
    (hjti : extract_jti token = some jti)
    (hget : get_active_by_jti db now jti = .ok (some s)) :
    ∃ r ∈ (logout_user db now token key bl).1,
      r.sid = s.sid ∧ r.is_active = false ∧ r.last_used_at = some now ∧
      r.refresh_token_jti = some jti := by
  have hfilter := get_active_by_jti_ok_some db now jti s hget
  have hs_mem : s ∈ db ∧ jtiActivePred now jti s = true := by
    have : s ∈ db.filter (jtiActivePred now jti) := by
      rw [hfilter]
      exact List.mem_singleton_self s
    exact List.mem_filter.mp this
  have hsjti : s.refresh_token_jti = some jti := by
    have h2 := hs_mem.2
    simp only [jtiActivePred, Bool.and_eq_true, beq_iff_eq] at h2
    exact h2.1.1
  have hlog : (logout_user db now token key bl).1 = revoke db s.sid now := by
    simp only [logout_user, hjti, hget]
  refine ⟨{ s with is_active := false, last_used_at := some now }, ?_, rfl, rfl, rfl, hsjti⟩
  rw [hlog, revoke]
  refine List.mem_map.mpr ⟨s, hs_mem.1, ?_⟩
  rw [if_pos (beq_self_eq_true s.sid)]

/-- C8 witness: a live session with jti `j` is revoked by logout, and the
revoked row still carries `refresh_token_jti = some "j"`. -/
theorem C8_logout_marks_inactive_keeps_jti_witness :
    ∃ r ∈ (logout_user
        [{ sid := 1, user_id := 7, device_id := 3, refresh_token_jti := some "j",
           is_active := true, expires_at := 100, created_at := 0, last_used_at := none }]
        50
        { payload := [("token_type", CVal.s "refresh"), ("exp", CVal.i 100),
                      ("jti", CVal.s "j")], key := "k" }
        "k" (fun _ => false)).1,
      r.sid = 1 ∧ r.is_active = false ∧ r.last_used_at = some 50 ∧
      r.refresh_token_jti = some "j" :=
  C8_logout_marks_inactive_keeps_jti
    [{ sid := 1, user_id := 7, device_id := 3, refresh_token_jti := some "j",
       is_active := true, expires_at := 100, created_at := 0, last_used_at := none }]
    50
    { payload := [("token_type", CVal.s "refresh"), ("exp", CVal.i 100),
                  ("jti", CVal.s "j")], key := "k" }
    "k" (fun _ => false) "j"
    { sid := 1, user_id := 7, device_id := 3, refresh_token_jti := some "j",
      is_active := true, expires_at := 100, created_at := 0, last_used_at := none }
    (by rfl) (by rfl)

/-- C8 counterexample: the claim says logout clears the refresh-token
identifier, but after a logout that revokes the session the stored row
still has `refresh_token_jti = some "j"`, not `none`. -/
theorem C8_counterexample :
    (logout_user
        [{ sid := 1, user_id := 7, device_id := 3, refresh_token_jti := some "j",
           is_active := true, expires_at := 100, created_at := 0, last_used_at := none }]
        50
        { payload := [("token_type", CVal.s "refresh"), ("exp", CVal.i 100),
                      ("jti", CVal.s "j")], key := "k" }
        "k" (fun _ => false)).1 =
      [{ sid := 1, user_id := 7, device_id := 3, refresh_token_jti := some "j",
         is_active := false, expires_at := 100, created_at := 0, last_used_at := some 50 }] ∧
    some "j" ≠ (none : Option String) := by
  constructor
  · rfl
  · decide

/-- C3 (amended): after a completed logout for a refresh token, a
subsequent refresh attempt with the same token does fail — but with the
session-lookup error `Invalid or expired refresh token`
(`SessionExpiredOrRevoked`), not with `RevokedToken`: `refresh_tokens`
checks the session table before ever verifying the token against the
blacklist, and the conclusion holds for every blacklist state, so the
`RevokedToken` outcome is never the one surfaced. -/
theorem C3_refresh_after_logout (db : List SessionRec) (now now₂ : ℤ)
    (token : JwtToken) (key : String) (jti : String) (bl₀ : String → Bool)
    (hjti : extract_jti token = some jti)
    (hnow : now ≤ now₂)
    (hone : ∃ opt, get_active_by_jti db now jti = .ok opt) :
    ∀ blacklist : String → Bool,
      refresh_tokens (logout_user db now token key bl₀).1 now₂ token key blacklist =
        .error { status_code := 401, message := "Invalid or expired refresh token" } := by
  intro bl
  rcases hone with ⟨opt0, hopt⟩
  rcases hget : get_active_by_jti db now jti with e | opt
  · rw [hget] at hopt
    exact Except.noConfusion hopt
  rcases opt with - | s
  · have hdb1 : (logout_user db now token key bl₀).1 = db := by
      simp only [logout_user, hjti, hget]
    have h0 := get_active_by_jti_ok_none db now jti hget
    have hempty : db.filter (jtiActivePred now₂ jti) = [] := by
      apply List.filter_eq_nil_iff.mpr
      intro a ha hpred
      have hpn := jtiActivePred_mono now now₂ jti a hnow hpred
      have hmem : a ∈ db.filter (jtiActivePred now jti) :=
        List.mem_filter.mpr ⟨ha, hpn⟩
      rw [h0] at hmem
      exact List.not_mem_nil a hmem
    have hnone : get_active_by_jti db now₂ jti = .ok none := by
      unfold get_active_by_jti
      rw [hempty]
    rw [hdb1]
    simp only [refresh_tokens, hjti, hnone]
  · have hfilter := get_active_by_jti_ok_some db now jti s hget
    have hdb1 : (logout_user db now token key bl₀).1 = revoke db s.sid now := by
      simp only [logout_user, hjti, hget]
    have hempty : (revoke db s.sid now).filter (jtiActivePred now₂ jti) = [] := by
      apply List.filter_eq_nil_iff.mpr
      intro r' hr'
      rw [revoke] at hr'
      obtain ⟨r, hr, rfl⟩ := List.mem_map.mp hr'
      by_cases hc : (r.sid == s.sid) = true
      · rw [if_pos hc]
        simp [jtiActivePred]
      · rw [if_neg hc]
        intro hpred
        have hpn := jtiActivePred_mono now now₂ jti r hnow hpred
        have hmem : r ∈ db.filter (jtiActivePred now jti) :=
          List.mem_filter.mpr ⟨hr, hpn⟩
        rw [hfilter] at hmem
        have hrs : r = s := List.mem_singleton.mp hmem
        rw [hrs] at hc
        exact hc (beq_self_eq_true s.sid)
    have hnone : get_active_by_jti (revoke db s.sid now) now₂ jti = .ok none := by
      unfold get_active_by_jti
      rw [hempty]
    rw [hdb1]
    simp only [refresh_tokens, hjti, hnone]

/-- C3 witness: a concrete logout followed by a refresh one second later
surfaces the session-lookup error, with a blacklist that marks the jti
revoked. -/
theorem C3_refresh_after_logout_witness :
    refresh_tokens
      (logout_user
        [{ sid := 1, user_id := 7, device_id := 3, refresh_token_jti := some "j",
           is_active := true, expires_at := 1000, created_at := 0, last_used_at := none }]
        10
        { payload := [("token_type", CVal.s "refresh"), ("exp", CVal.i 1000),
                      ("jti", CVal.s "j")], key := "k" }
        "k" (fun _ => false)).1
      11
      { payload := [("token_type", CVal.s "refresh"), ("exp", CVal.i 1000),
                    ("jti", CVal.s "j")], key := "k" }
      "k" (fun j => j == "j") =
      .error { status_code := 401, message := "Invalid or expired refresh token" } :=
  C3_refresh_after_logout
    [{ sid := 1, user_id := 7, device_id := 3, refresh_token_jti := some "j",
       is_active := true, expires_at := 1000, created_at := 0, last_used_at := none }]
    10 11
    { payload := [("token_type", CVal.s "refresh"), ("exp", CVal.i 1000),
                  ("jti", CVal.s "j")], key := "k" }
    "k" "j" (fun _ => false)
    (by rfl) (by decide) ⟨_, rfl⟩ (fun j => j == "j")

/-- C3 counterexample: logout revokes the session and blacklists jti `j`
(the post-logout blacklist reports `j` revoked), yet the subsequent refresh
with the same token fails with the session-lookup error
`Invalid or expired refresh token`, which differs from the blacklist error
`Token has been revoked` the claim requires. -/
theorem C3_counterexample :
    (logout_user
        [{ sid := 1, user_id := 7, device_id := 3, refresh_token_jti := some "j",
           is_active := true, expires_at := 1000, created_at := 0, last_used_at := none }]
        10
        { payload := [("token_type", CVal.s "refresh"), ("exp", CVal.i 1000),
                      ("jti", CVal.s "j")], key := "k" }
        "k" (fun _ => false)).2.map (fun bl => bl "j") = .ok true ∧
    refresh_tokens
      [{ sid := 1, user_id := 7, device_id := 3, refresh_token_jti := some "j",
         is_active := false, expires_at := 1000, created_at := 0, last_used_at := some 10 }]
      11
      { payload := [("token_type", CVal.s "refresh"), ("exp", CVal.i 1000),
                    ("jti", CVal.s "j")], key := "k" }
      "k" (fun j => j == "j") =
      .error { status_code := 401, message := "Invalid or expired refresh token" } ∧
    (logout_user
        [{ sid := 1, user_id := 7, device_id := 3, refresh_token_jti := some "j",
           is_active := true, expires_at := 1000, created_at := 0, last_used_at := none }]
        10
        { payload := [("token_type", CVal.s "refresh"), ("exp", CVal.i 1000),
                      ("jti", CVal.s "j")], key := "k" }
        "k" (fun _ => false)).1 =
      [{ sid := 1, user_id := 7, device_id := 3, refresh_token_jti := some "j",
         is_active := false, expires_at := 1000, created_at := 0, last_used_at := some 10 }] ∧
    ({ status_code := 401, message := "Invalid or expired refresh token" } : AppError) ≠
      { status_code := 401, message := "Token has been revoked" } := by
  refine ⟨rfl, rfl, rfl, ?_⟩
  decide

/-! ## Login credential checking (`service/auth.py` lines 266-289) -/

/-- The user fields consulted by the login credential phase
(models/db/user.py). `deleted_at` is an integer timestamp. -/
structure UserRec where
  email : String
  username : Option String
  hashed_password : Option String
  is_deleted : Bool
  deleted_at : Option ℤ
  deriving Repr, DecidableEq

/-- `User.verify_password` (user.py): false when no hash is stored,
otherwise delegate to the password hasher `hverify plaintext hash`. -/
def verify_password (hverify : String → String → Bool) (u : UserRec)
    (password : String) : Bool :=
  match u.hashed_password with
  | none => false
  | some h => hverify password h

/-- `check_deleted_user` (core/utils/user_utils.py lines 16-43): raises 403
only when both `is_deleted` and `deleted_at` are set; past the recovery
window of `deletionDays` days the account is permanently gone, otherwise
the message reports the remaining recovery time (text abbreviated here). -/
def check_deleted_user (deletionDays : ℤ) (now : ℤ) (u : UserRec) :
    Option AppError :=
  if u.is_deleted then
    match u.deleted_at with
    | some d =>
      if d + deletionDays * 86400 ≤ now then
        some { status_code := 403, message := "User account permanently deleted" }
      else
        some { status_code := 403, message := "User account deleted. Recovery window open" }
    | none => none
  else none

/-- Modelled from the spec: the message built by
`exc_details.http_400_signin_credentials_details()` — the module
`core/utils/messages/exceptions/http.py` is not among the sources. Spec §7
describes `InvalidCredentials` as a "generic message (no field
disambiguation)". -/
def signin_credentials_message : String := "Invalid email/username or password"

/-- The credential phase of `AuthService.login_user` (auth.py lines
266-289): resolve by email, else by username; unknown identity raises 401
with the literal message `Invalid email/username or password`; a deleted
account defers to `check_deleted_user`; a password mismatch raises 400
with the `exc_details` message. -/
def login_credential_check (findByEmail : String → Option UserRec)
    (findByUsername : String → Option UserRec)
    (hverify : String → String → Bool) (deletionDays now : ℤ)
    (email username : Option String) (password : String) :
    Except AppError UserRec :=
  let user : Option UserRec :=
    match email with
    | some e => findByEmail e
    | none =>
      match username with
      | some un => findByUsername un
      | none => none
  match user with
  | none => .error { status_code := 401, message := "Invalid email/username or password" }
  | some u =>
    match (if u.is_deleted then check_deleted_user deletionDays now u else none) with
    | some err => .error err
    | none =>
      if verify_password hverify u password then .ok u
      else .error { status_code := 400, message := signin_credentials_message }

/-- C7 (amended): both failing login paths reject with a generic
invalid-credentials message that does not reveal which field was wrong, and
the same exception kind — but NOT with identical status codes: an unknown
identity is rejected with 401 while a wrong password for an existing,
non-deleted account is rejected with 400, so the two errors are
distinguishable by status code. -/
theorem C7_login_error_statuses (findByEmail findByUsername : String → Option UserRec)
    (hverify : String → String → Bool) (deletionDays now : ℤ)
    (e₁ e₂ password₁ password₂ : String) (u : UserRec)
    (h₁ : findByEmail e₁ = none)
    (h₂ : findByEmail e₂ = some u)
    (hdel : u.is_deleted = false)
    (hpw : verify_password hverify u password₂ = false) :
    login_credential_check findByEmail findByUsername hverify deletionDays now
        (some e₁) none password₁ =
      .error { status_code := 401, message := "Invalid email/username or password" } ∧
    login_credential_check findByEmail findByUsername hverify deletionDays now
        (some e₂) none password₂ =
      .error { status_code := 400, message := signin_credentials_message } ∧
    (401 : ℤ) ≠ 400 := by
  refine ⟨?_, ?_, by decide⟩
  · simp only [login_credential_check, h₁]
  · simp only [login_credential_check, h₂, hdel, if_false, hpw]
    rfl

/-- C7 witness: a one-user directory; logging in with an unknown email
gives 401, logging in with the known email and a wrong password gives
400. -/
theorem C7_login_error_statuses_witness :
    login_credential_check
        (fun e => if e == "known" then
          some { email := "known", username := none, hashed_password := some "pw",
                 is_deleted := false, deleted_at := none } else none)
        (fun _ => none) (fun p h => p == h) 30 0
        (some "unknown") none "whatever" =
      .error { status_code := 401, message := "Invalid email/username or password" } ∧
    login_credential_check
        (fun e => if e == "known" then
          some { email := "known", username := none, hashed_password := some "pw",
                 is_deleted := false, deleted_at := none } else none)
        (fun _ => none) (fun p h => p == h) 30 0
        (some "known") none "wrong" =
      .error { status_code := 400, message := signin_credentials_message } ∧
    (401 : ℤ) ≠ 400 :=
  C7_login_error_statuses
    (fun e => if e == "known" then
      some { email := "known", username := none, hashed_password := some "pw",
             is_deleted := false, deleted_at := none } else none)
    (fun _ => none) (fun p h => p == h) 30 0
    "unknown" "known" "whatever" "wrong"
    { email := "known", username := none, hashed_password := some "pw",
      is_deleted := false, deleted_at := none }
    (by rfl) (by rfl) (by rfl) (by rfl)

/-- C7 counterexample: with the same concrete directory, the unknown-email
rejection carries status 401 while the wrong-password rejection carries
status 400 — the two errors are not identical, refuting the claim that
both fail with the same status code. -/
theorem C7_counterexample :
    (login_credential_check
        (fun e => if e == "known" then
          some { email := "known", username := none, hashed_password := some "pw",
                 is_deleted := false, deleted_at := none } else none)
        (fun _ => none) (fun p h => p == h) 30 0
        (some "unknown") none "whatever" =
      .error { status_code := 401, message := "Invalid email/username or password" }) ∧
    (login_credential_check
        (fun e => if e == "known" then
          some { email := "known", username := none, hashed_password := some "pw",
                 is_deleted := false, deleted_at := none } else none)
        (fun _ => none) (fun p h => p == h) 30 0
        (some "known") none "wrong" =
      .error { status_code := 400, message := signin_credentials_message }) ∧
    ({ status_code := 401, message := "Invalid email/username or password" } : AppError) ≠
      { status_code := 400, message := signin_credentials_message } := by
  refine ⟨rfl, rfl, ?_⟩
  decide

end FinTrac
